import Mathlib

/-
Verification of the dash-app liquidity-pool dashboard.

Shallow embedding of the scoring-and-filtering core of the repository:
  - src/live_dashboard.py : fetch_data, normalize, calculate_vora_score,
    the sidebar filters and the session selection sync in main.
  - src/app.py            : fetch_data, update_results (filter pipeline) and
    update_portfolio (selection store and aggregate stats).

Numbers are modeled as rationals.  Pandas/NumPy float special values that the
code can actually produce (NaN from 0/0, infinities from x/0) are modeled by
the PyFloat type below.  Randomness (np.random draws) is modeled by passing
the drawn values as explicit arguments, since the code draws fresh values on
every run.
-/

/-- Model of a Python/NumPy double where the code can produce special values:
`val q` is an ordinary finite value, `nan` is the result of 0/0, `inf` and
`ninf` the results of dividing a nonzero value by zero. -/
inductive PyFloat where
  | val (q : ℚ)
  | nan
  | inf
  | ninf
deriving DecidableEq, Repr

/-- Multiplication of a PyFloat by a rational constant, with NumPy semantics:
NaN propagates, and 0 times an infinity is NaN. -/
def PyFloat.scale (k : ℚ) : PyFloat → PyFloat
  | .val q => .val (k * q)
  | .nan => .nan
  | .inf => if k = 0 then .nan else if 0 < k then .inf else .ninf
  | .ninf => if k = 0 then .nan else if 0 < k then .ninf else .inf

/-- Addition of PyFloats with NumPy semantics: NaN propagates and opposite
infinities give NaN. -/
def PyFloat.add : PyFloat → PyFloat → PyFloat
  | .nan, _ => .nan
  | _, .nan => .nan
  | .inf, .ninf => .nan
  | .ninf, .inf => .nan
  | .inf, _ => .inf
  | _, .inf => .inf
  | .ninf, _ => .ninf
  | _, .ninf => .ninf
  | .val a, .val b => .val (a + b)

/-- Float division as pandas performs it elementwise: 0/0 is NaN and a
nonzero value divided by 0 is a signed infinity. -/
def pyDiv (a b : ℚ) : PyFloat :=
  if b = 0 then
    if a = 0 then .nan else if 0 < a then .inf else .ninf
  else .val (a / b)

/-- Minimum of two rationals, written out so the kernel can evaluate it. -/
def ratMin (a b : ℚ) : ℚ := if a ≤ b then a else b

/-- Maximum of two rationals, written out so the kernel can evaluate it. -/
def ratMax (a b : ℚ) : ℚ := if a ≤ b then b else a

/-- Floor of a rational as an integer, via floored integer division. -/
def ratFloor (q : ℚ) : ℤ := Int.fdiv q.num q.den

/-- Pandas Series.min in the form the embedding needs: none on an empty
series, otherwise the least element. -/
def seriesMin? : List ℚ → Option ℚ
  | [] => none
  | x :: xs => some (xs.foldl ratMin x)

/-- Pandas Series.max: none on an empty series, otherwise the greatest
element. -/
def seriesMax? : List ℚ → Option ℚ
  | [] => none
  | x :: xs => some (xs.foldl ratMax x)

/-- NumPy astype(int) on a double: truncation toward zero for finite values;
for NaN or an infinity the cast is undefined behavior, modeled as `none`. -/
def pyTruncToInt : PyFloat → Option ℤ
  | .val q => some (if 0 ≤ q then ratFloor q else -ratFloor (-q))
  | _ => none

/-- Embedding of normalize in src/live_dashboard.py lines 41-43:
`(series - series.min()) / (series.max() - series.min())`.
The guard on an empty list mirrors pandas mapping an empty series to an
empty series.  The source calls this function normalize; that name is
already taken by Mathlib, hence the suffix. -/
def normalizeSeries (s : List ℚ) : List PyFloat :=
  match seriesMin? s, seriesMax? s with
  | some m, some M => s.map (fun x => pyDiv (x - m) (M - m))
  | _, _ => []

/-- Embedding of calculate_vora_score in src/live_dashboard.py lines 46-57.
The three np.random.uniform(0,1,len(df)) draws for fee efficiency,
impermanent loss and token quality are passed as the explicit argument lists
`feeEff`, `ilProt` and `tokQual`, because the code draws fresh values on
every run.  The result models the VORA_SCORE column after astype(int). -/
def calculate_vora_score (tvls apys feeEff ilProt tokQual : List ℚ) : List (Option ℤ) :=
  let nt := normalizeSeries tvls
  let na := normalizeSeries apys
  let base := List.zipWith (fun a b => PyFloat.add (PyFloat.scale 25 a) (PyFloat.scale 20 b)) nt na
  let s1 := List.zipWith (fun a r => PyFloat.add a (PyFloat.val (15 * r))) base feeEff
  let s2 := List.zipWith (fun a r => PyFloat.add a (PyFloat.val (10 * (1 - r)))) s1 ilProt
  let s3 := List.zipWith (fun a r => PyFloat.add a (PyFloat.val (30 * r))) s2 tokQual
  s3.map pyTruncToInt

/-- One row of the app.py DataFrame after fetch_data renamed the columns
(Symbol, Chain, Protocol, TVL (USD), APY (%), Vora Score). -/
structure Row where
  symbol : String
  chain : String
  protocol : String
  tvlUsd : ℚ
  apy : ℚ
  voraScore : ℚ
deriving DecidableEq, Repr

/-- The six filter control values handed to update_results in src/app.py.
Python truthiness drives the code: an empty list, an empty string, the
number 0 and None all skip the corresponding filter; None for the numeric
inputs is modeled as 0, which the code treats identically. -/
structure FilterCriteria where
  chainFilter : List String
  protocolFilter : List String
  token1Filter : String
  token2Filter : String
  tvlFilter : ℚ
  apyFilter : ℚ
deriving DecidableEq, Repr

/-- One regex pattern character as pandas str.contains interprets it with
its default regex mode: the character . matches any character, and any
other character in the modeled fragment matches itself up to case.  This
models the fragment of Python re patterns made of literal characters and
the . wildcard, which is exact for every pattern used in the theorems
below. -/
def patCharMatches (p c : Char) : Bool :=
  p == '.' || p.toLower == c.toLower

/-- Does the pattern match a prefix of the text, consuming one character
per pattern character. -/
def matchAt : List Char → List Char → Bool
  | [], _ => true
  | _ :: _, [] => false
  | p :: ps, c :: cs => patCharMatches p c && matchAt ps cs

/-- Python re.search semantics on the modeled fragment: the pattern may
match starting at any position of the text. -/
def reSearch (pat : List Char) : List Char → Bool
  | [] => matchAt pat []
  | c :: cs => matchAt pat (c :: cs) || reSearch pat cs

/-- Embedding of `series.str.contains(pat, case=False, na=False)` from
src/app.py lines 153 and 157: a case-insensitive regular-expression search
of `pat` inside `s` (pandas keeps its default regex=True). -/
def strContainsRegexCI (s pat : String) : Bool :=
  reSearch pat.data s.data

/-- Score-descending order between rows: row `a` may precede row `b` when
the score of `a` is at least that of `b`.  A RankedCollection is a list
sorted by this relation. -/
def scoreGe (a b : Row) : Prop := b.voraScore ≤ a.voraScore

instance : DecidableRel scoreGe :=
  fun a b => inferInstanceAs (Decidable (b.voraScore ≤ a.voraScore))

/-- Strict score-descending order: the score of `a` exceeds that of `b`.
A collection sorted by this relation has no score ties. -/
def scoreGt (a b : Row) : Prop := b.voraScore < a.voraScore

/-- Score-ascending order between rows, the key order of the ascending
argsort that pandas computes before reversing it for ascending=False. -/
def scoreLe (a b : Row) : Prop := a.voraScore ≤ b.voraScore

instance : DecidableRel scoreLe :=
  fun a b => inferInstanceAs (Decidable (a.voraScore ≤ b.voraScore))

instance : IsTotal Row scoreLe := ⟨fun a b => le_total a.voraScore b.voraScore⟩

instance : IsTrans Row scoreLe := ⟨fun _ _ _ hab hbc => le_trans hab hbc⟩

/-- Embedding of `sort_values(by="Vora Score", ascending=False)` at
src/app.py line 174.  Pandas implements a descending single-key sort by
computing an ASCENDING argsort of the key column and then reversing the
resulting indexer (nargsort), so rows with EQUAL scores come back in
reversed relative order — the sort is not stable.  The ascending argsort
is modeled as a stable sort (the tie order of the default kind=quicksort
is unspecified; for small runs NumPy introsort falls back to insertion
sort, matching this model) and the reversal is explicit. -/
def sortValuesScoreDesc (l : List Row) : List Row :=
  (List.insertionSort scoreLe l).reverse

/-- One optionally applied filter statement of update_results: when the
control value is at its falsy default (`skip` holds) the statement does
not run and the frame passes through, otherwise the rows satisfying the
predicate are kept. -/
def optFilter (skip : Prop) [Decidable skip] (p : Row → Bool) (l : List Row) : List Row :=
  if skip then l else l.filter p

/-- Embedding of update_results in src/app.py lines 139-176.  The six
filter statements run in source order, each applied only when its control
value is truthy in Python, and the result is sorted by Vora Score
descending through sortValuesScoreDesc, the reverse-of-ascending sort
that pandas sort_values performs. -/
def update_results (c : FilterCriteria) (df : List Row) : List Row :=
  let d1 := optFilter (c.chainFilter = []) (fun r => decide (r.chain ∈ c.chainFilter)) df
  let d2 := optFilter (c.protocolFilter = []) (fun r => decide (r.protocol ∈ c.protocolFilter)) d1
  let d3 := optFilter (c.token1Filter = "") (fun r => strContainsRegexCI r.symbol c.token1Filter) d2
  let d4 := optFilter (c.token2Filter = "") (fun r => strContainsRegexCI r.symbol c.token2Filter) d3
  let d5 := optFilter (c.tvlFilter = 0) (fun r => decide (c.tvlFilter ≤ r.tvlUsd)) d4
  let d6 := optFilter (c.apyFilter = 0) (fun r => decide (c.apyFilter ≤ r.apy)) d5
  sortValuesScoreDesc d6

/-- The FilterCriteria whose fields all hold their no-restriction default:
no chains, no protocols, empty token searches and zero thresholds. -/
def defaultCriteria : FilterCriteria := ⟨[], [], "", "", 0, 0⟩

/-- The token-matching predicate as the specification words it: the symbol
contains the token as a case-insensitive substring. -/
def specTokenMatch (token symbol : String) : Prop :=
  (token.data.map Char.toLower) <:+: (symbol.data.map Char.toLower)

instance (token symbol : String) : Decidable (specTokenMatch token symbol) :=
  inferInstanceAs (Decidable (_ <:+: _))

/-- Helper for drop_duplicates: keep each row the first time it is seen.
`seen` accumulates the rows already emitted. -/
def dropDupAux (seen : List Row) : List Row → List Row
  | [] => []
  | r :: rs =>
    if r ∈ seen then dropDupAux seen rs
    else r :: dropDupAux (r :: seen) rs

/-- Embedding of pandas DataFrame.drop_duplicates as used in src/app.py
line 196: rows are compared on ALL columns (full-row equality, not the
composite key) and the first occurrence is kept, preserving order. -/
def drop_duplicates (l : List Row) : List Row := dropDupAux [] l

/-- Embedding of update_portfolio in src/app.py lines 187-196, the part
that computes the new portfolio-store contents: when the displayed view
`data` is empty the stored portfolio is returned unchanged, otherwise the
rows of `data` at the positions in `selectedRows` are appended to the
stored portfolio and full-row duplicates are dropped.  Out-of-range
positions are ignored (pandas iloc would raise; no theorem below uses
one). -/
def update_portfolio (data : List Row) (selectedRows : List ℕ) (portfolio : List Row) : List Row :=
  if data = [] then portfolio
  else drop_duplicates (portfolio ++ selectedRows.filterMap (fun i => data[i]?))

/-- Pandas Series.mean: NaN on an empty series, modeled as `none`. -/
def pyMean (l : List ℚ) : Option ℚ :=
  if l = [] then none else some (l.sum / l.length)

/-- The aggregate output of update_portfolio: either the sentinel branch
that renders the text No LPs selected, or the three mean values, where an
inner `none` is a NaN mean over an empty column. -/
inductive PortfolioStats where
  | noData
  | stats (meanTvl meanApy meanScore : Option ℚ)
deriving DecidableEq, Repr

/-- Embedding of the aggregate-statistics part of update_portfolio in
src/app.py lines 187-201: the sentinel is emitted only when the displayed
view `data` is empty; otherwise the three means are taken over the updated
portfolio, whatever its size. -/
def update_portfolio_stats (data : List Row) (selectedRows : List ℕ) (portfolio : List Row) :
    PortfolioStats :=
  if data = [] then .noData
  else
    let pdf := update_portfolio data selectedRows portfolio
    .stats (pyMean (pdf.map (·.tvlUsd))) (pyMean (pdf.map (·.apy))) (pyMean (pdf.map (·.voraScore)))

/-- One row of the live_dashboard.py grid DataFrame: the renamed API
columns plus the FAVORITE and SELECTED flag columns added in main. -/
structure GridRow where
  chain : String
  project : String
  symbol : String
  tvl : ℚ
  apy : ℚ
  favorite : Bool
  selected : Bool
deriving DecidableEq, Repr

/-- Round half to even, as Python string formatting with .0f does. -/
def roundHalfEven (q : ℚ) : ℤ :=
  let f := ratFloor q
  let r := q - f
  if r < 1/2 then f
  else if 1/2 < r then f + 1
  else if f % 2 = 0 then f else f + 1

/-- Embedding of the sidebar filters of src/live_dashboard.py lines
106-113.  The chain and project filters apply only when ALL is not among
the selected options.  Because format_columns already turned TVL and APY
into display strings, the code parses them back, so the thresholds compare
against the rounded display values: TVL formatted with .0f and APY with
.2f. -/
def mainFilters (selChains selProjects : List String) (tvlMin apyMin : ℚ)
    (df : List GridRow) : List GridRow :=
  let f1 := if "ALL" ∈ selChains then df else
    df.filter (fun r => decide (r.chain ∈ selChains))
  let f2 := if "ALL" ∈ selProjects then f1 else
    f1.filter (fun r => decide (r.project ∈ selProjects))
  let f3 := f2.filter (fun r => decide (tvlMin ≤ (roundHalfEven r.tvl : ℚ)))
  f3.filter (fun r => decide (apyMin ≤ (roundHalfEven (100 * r.apy) : ℚ) / 100))

/-- Embedding of the selection handling of src/live_dashboard.py main,
lines 91-92 and 129-132: the SELECTED flag of each row is set from the
stored selection by SYMBOL membership, the sidebar filters produce the
displayed grid, and the session selection state is then REPLACED by the
rows of the displayed grid whose SELECTED flag is set. -/
def main_sync_selected (selectedSyms : List String) (df : List GridRow)
    (selChains selProjects : List String) (tvlMin apyMin : ℚ) : List GridRow :=
  let flagged := df.map (fun r => { r with selected := decide (r.symbol ∈ selectedSyms) })
  let view := mainFilters selChains selProjects tvlMin apyMin flagged
  view.filter (fun r => r.selected)

/-- One raw record from the pools API as the code consumes it: the three
string fields and the two numeric fields, where `none` models a field that
is absent in the source JSON (pandas turns it into NaN). -/
structure RawRecord where
  symbol : String
  chain : String
  project : String
  tvlUsd : Option ℚ
  apy : Option ℚ
deriving DecidableEq, Repr

/-- Pandas Series.astype(float) on an already numeric column: a numeric
value stays itself and NaN stays NaN.  No value is defaulted and no row is
dropped. -/
def astypeFloat (v : Option ℚ) : Option ℚ := v

/-- One row fed to calculate_vora_score by src/live_dashboard.py main. -/
structure MainRow where
  symbol : String
  chain : String
  project : String
  tvl : Option ℚ
  apy : Option ℚ
deriving DecidableEq, Repr

/-- Embedding of the record preparation in src/live_dashboard.py lines
79-82: build the DataFrame, rename the columns and cast TVL and APY with
astype(float).  There is no allow-list step, no apy default and no
dropping of records in this code path. -/
def main_normalize (data : List RawRecord) : List MainRow :=
  data.map (fun r => ⟨r.symbol, r.chain, r.project, astypeFloat r.tvlUsd, astypeFloat r.apy⟩)

/-- MAX_RETRIES from src/live_dashboard.py line 12. -/
def MAX_RETRIES : ℕ := 3

/-- The attempt loop of fetch_data in src/live_dashboard.py lines 27-38.
`oracle n` is the outcome of the attempt made when retries = n: `some d`
models a successful request returning the data array `d`, and `none`
models a requests.exceptions.RequestException (network failure, timeout or
non-success status raised by raise_for_status).  `fuel` counts the
remaining iterations allowed by the while guard. -/
def fetch_data_loop (oracle : ℕ → Option (List RawRecord)) : ℕ → ℕ → List RawRecord
  | 0, _ => []
  | fuel + 1, retries =>
    match oracle retries with
    | some d => d
    | none => fetch_data_loop oracle fuel (retries + 1)

/-- Embedding of fetch_data in src/live_dashboard.py lines 27-38: at most
MAX_RETRIES attempts, returning the first successful payload, and the
empty list once every attempt has failed.  Every caught exception is
consumed by the except branch, so the function is total. -/
def fetch_data (oracle : ℕ → Option (List RawRecord)) : List RawRecord :=
  fetch_data_loop oracle MAX_RETRIES 0

/-- Outcome of the single requests.get call in src/app.py fetch_data:
either a response with a status code and payload, or a raised
requests exception (connection error or timeout), which that function does
not catch. -/
inductive HttpResult where
  | response (status : ℕ) (data : List RawRecord)
  | raised
deriving DecidableEq, Repr

/-- Embedding of fetch_data in src/app.py lines 12-29: a single attempt
with no try/except.  A 200 response yields the payload, any other status
yields an empty frame, and a raised exception propagates to the caller,
modeled by the error branch of Except. -/
def app_fetch_data : HttpResult → Except String (List RawRecord)
  | .raised => .error "requests.exceptions.RequestException"
  | .response status data => if status = 200 then .ok data else .ok []

/-- Fixture row with the larger score, used by several witnesses. -/
def rowA : Row := ⟨"ETH-USDC", "Ethereum", "uniswap-v3", 1000000, 8, 90⟩

/-- Fixture row with the smaller score. -/
def rowB : Row := ⟨"BTC-ETH", "Ethereum", "uniswap-v3", 500000, 4, 80⟩

/-- Fixture: stored portfolio entry for the key (STG-USDC, Arbitrum,
uniswap-v3) with the older TVL value. -/
def rowOld : Row := ⟨"STG-USDC", "Arbitrum", "uniswap-v3", 100, 5, 80⟩

/-- Fixture: incoming row with the same composite key as rowOld but a newer
TVL value. -/
def rowNew : Row := ⟨"STG-USDC", "Arbitrum", "uniswap-v3", 200, 5, 80⟩

/-- Fixture grid row for the live_dashboard selection theorems. -/
def gridETH : GridRow := ⟨"Ethereum", "uniswap-v3", "ETH-USDC", 1000000, 8, false, false⟩

/-- Fixture raw record whose tvlUsd and apy fields are absent. -/
def rawMissing : RawRecord := ⟨"X", "Ethereum", "uniswap-v3", none, none⟩

/-- Fixture row whose symbol exercises the wildcard of the pattern A.C. -/
def rowABC : Row := ⟨"ABC", "Ethereum", "uniswap-v3", 1000000, 8, 90⟩

/-- Fixture criteria whose token1 field is the pattern A.C, every other
field at its no-restriction default. -/
def critRegex : FilterCriteria := ⟨[], [], "A.C", "", 0, 0⟩

/-- Fixture criteria with a chain, a plain alphanumeric token and both
numeric thresholds supplied. -/
def critToken : FilterCriteria := ⟨["Ethereum"], [], "USDC", "", 800000, 5⟩

/-- Fixture row matched by critToken. -/
def rowWUSDC : Row := ⟨"WETH-USDC", "Ethereum", "uniswap-v3", 1000000, 8, 90⟩

/-- Fixture rows with EQUAL Vora Score, for the tie-order theorems. -/
def rowT1 : Row := ⟨"AAA-BBB", "Ethereum", "uniswap-v3", 1000, 5, 80⟩

/-- Second fixture row with the same Vora Score as rowT1. -/
def rowT2 : Row := ⟨"CCC-DDD", "Ethereum", "uniswap-v3", 2000, 6, 80⟩

/-- For a pattern that contains no wildcard, matching at the head of the
text is exactly a case-insensitive prefix match. -/
theorem matchAt_iff (pat : List Char) (hp : ∀ ch ∈ pat, ch ≠ '.') :
    ∀ s : List Char,
      (matchAt pat s = true ↔ ∃ t, pat.map Char.toLower ++ t = s.map Char.toLower) := by
  induction pat with
  | nil =>
    intro s
    simp [matchAt]
  | cons p ps ih =>
    intro s
    cases s with
    | nil =>
      simp [matchAt]
    | cons c cs =>
      have hpd : (p == '.') = false :=
        beq_eq_false_iff_ne.mpr (hp p (List.mem_cons_self p ps))
      have hps : ∀ ch ∈ ps, ch ≠ '.' := fun ch h => hp ch (List.mem_cons_of_mem p h)
      simp only [matchAt, patCharMatches, hpd, Bool.false_or, Bool.and_eq_true, beq_iff_eq,
        List.map_cons, List.cons_append, List.cons.injEq, ih hps cs]
      constructor
      · rintro ⟨h1, t, h2⟩
        exact ⟨t, h1, h2⟩
      · rintro ⟨t, h1, h2⟩
        exact ⟨h1, t, h2⟩

/-- For a pattern that contains no wildcard, the regex search is exactly a
case-insensitive substring test. -/
theorem reSearch_iff (pat : List Char) (hp : ∀ ch ∈ pat, ch ≠ '.') :
    ∀ s : List Char,
      (reSearch pat s = true ↔
        ∃ u v, u ++ pat.map Char.toLower ++ v = s.map Char.toLower) := by
  intro s
  induction s with
  | nil =>
    simp only [reSearch, matchAt_iff pat hp, List.map_nil]
    constructor
    · rintro ⟨t, ht⟩
      exact ⟨[], t, ht⟩
    · rintro ⟨u, v, huv⟩
      rcases List.append_eq_nil.mp huv with ⟨h1, h2⟩
      rcases List.append_eq_nil.mp h1 with ⟨h3, h4⟩
      exact ⟨v, by simp [h4, h2]⟩
  | cons c cs ih =>
    simp only [reSearch, Bool.or_eq_true, matchAt_iff pat hp, ih, List.map_cons]
    constructor
    · rintro (⟨t, ht⟩ | ⟨u, v, huv⟩)
      · exact ⟨[], t, by simpa using ht⟩
      · exact ⟨c.toLower :: u, v, by simp [huv]⟩
    · rintro ⟨u, v, huv⟩
      cases u with
      | nil =>
        exact Or.inl ⟨v, by simpa using huv⟩
      | cons u0 us =>
        simp only [List.cons_append, List.cons.injEq] at huv
        exact Or.inr ⟨us, v, huv.2⟩

/-- On a token made only of alphanumeric characters (hence free of regex
metacharacters, in particular of the wildcard), the pandas regex search of
the code agrees with the case-insensitive substring test of the
specification. -/
theorem strContains_iff_specTokenMatch (sym tok : String)
    (ht : ∀ ch ∈ tok.data, ch.isAlphanum = true) :
    strContainsRegexCI sym tok = true ↔ specTokenMatch tok sym := by
  have hp : ∀ ch ∈ tok.data, ch ≠ '.' := fun ch hch h =>
    absurd (h ▸ ht ch hch) (by decide)
  rw [strContainsRegexCI, reSearch_iff tok.data hp sym.data]
  constructor
  · rintro ⟨u, v, h⟩
    exact ⟨u, v, h⟩
  · rintro ⟨u, v, h⟩
    exact ⟨u, v, h⟩

/-- Membership in one optionally applied filter stage of update_results:
the row survives the stage exactly when it was there before and either the
stage is switched off or its predicate holds. -/
theorem mem_optFilter (c : Prop) [Decidable c] (p : Row → Bool) (l : List Row) (r : Row) :
    r ∈ optFilter c p l ↔ r ∈ l ∧ (c ∨ p r = true) := by
  unfold optFilter
  by_cases h : c <;> simp [h, List.mem_filter]

/-- Membership in dropDupAux: a row is kept exactly when it occurs in the
input and was not already seen. -/
theorem mem_dropDupAux (l : List Row) :
    ∀ (seen : List Row) (r : Row), r ∈ dropDupAux seen l ↔ r ∈ l ∧ r ∉ seen := by
  induction l with
  | nil =>
    intro seen r
    simp [dropDupAux]
  | cons a as ih =>
    intro seen r
    simp only [dropDupAux]
    by_cases h : a ∈ seen
    · rw [if_pos h, ih]
      simp only [List.mem_cons]
      constructor
      · rintro ⟨h1, h2⟩
        exact ⟨Or.inr h1, h2⟩
      · rintro ⟨h1 | h1, h2⟩
        · exact absurd (h1 ▸ h) h2
        · exact ⟨h1, h2⟩
    · rw [if_neg h]
      by_cases hr : r = a
      · subst hr
        simp [ih, h]
      · simp only [List.mem_cons, ih, List.mem_cons]
        constructor
        · rintro (h1 | ⟨h1, h2⟩)
          · exact absurd h1 hr
          · exact ⟨Or.inr h1, fun hs => h2 (Or.inr hs)⟩
        · rintro ⟨h1 | h1, h2⟩
          · exact absurd h1 hr
          · exact Or.inr ⟨h1, fun hs => (hs.elim hr h2 : False)⟩

/-- Every row already stored in the portfolio is still present after
update_portfolio runs, whatever the displayed view and the selected rows
are: the code only ever appends. -/
theorem update_portfolio_retains_prior (data : List Row) (sel : List ℕ)
    (portfolio : List Row) (r : Row) (h : r ∈ portfolio) :
    r ∈ update_portfolio data sel portfolio := by
  unfold update_portfolio
  by_cases hd : data = []
  · rw [if_pos hd]
    exact h
  · rw [if_neg hd]
    unfold drop_duplicates
    rw [mem_dropDupAux]
    exact ⟨List.mem_append_left _ h, List.not_mem_nil r⟩

/-- orderedInsert appends the new element at the end when it is strictly
above every element of the list in the ascending key order. -/
theorem orderedInsert_append_of_forall (a : Row) :
    ∀ l : List Row, (∀ b ∈ l, ¬ scoreLe a b) →
      List.orderedInsert scoreLe a l = l ++ [a] := by
  intro l
  induction l with
  | nil =>
    intro _
    rfl
  | cons c cs ih =>
    intro h
    rw [List.orderedInsert, if_neg (h c (List.mem_cons_self c cs)),
      ih (fun b hb => h b (List.mem_cons_of_mem c hb))]
    rfl

/-- On a strictly score-descending list the stable ascending sort produces
exactly the reversed list. -/
theorem insertionSort_of_sorted_strict (df : List Row) (h : List.Sorted scoreGt df) :
    List.insertionSort scoreLe df = df.reverse := by
  induction df with
  | nil => rfl
  | cons a t ih =>
    rw [List.sorted_cons] at h
    obtain ⟨ha, ht⟩ := h
    rw [List.insertionSort, ih ht, List.reverse_cons,
      orderedInsert_append_of_forall a t.reverse]
    intro b hb
    rw [List.mem_reverse] at hb
    exact not_le.mpr (ha b hb)

/-- The live_dashboard fetch loop returns the empty list whenever the
first three attempts all fail, for any oracle. -/
theorem fetch_data_empty_when_all_attempts_fail (oracle : ℕ → Option (List RawRecord))
    (h0 : oracle 0 = none) (h1 : oracle 1 = none) (h2 : oracle 2 = none) :
    fetch_data oracle = [] := by
  have e0 : fetch_data oracle = fetch_data_loop oracle 3 0 := rfl
  rw [e0]
  simp [fetch_data_loop, h0, h1, h2]

/-- C1: the Vora score is NOT deterministic.  calculate_vora_score is
evaluated twice on the identical two-record collection (tvl 1000000 and
500000, apy 8 and 4) with two different sets of np.random.uniform draws;
the resulting integer score columns differ ([45, 0] against [75, 30]), so
the score depends on the random draws and two runs on identical input data
disagree.  This contradicts the determinism the claim states and confirms
the latent defect the specification flags. -/
theorem calculate_vora_score_depends_on_randomness :
    calculate_vora_score [1000000, 500000] [8, 4] [0, 0] [1, 1] [0, 0] ≠
      calculate_vora_score [1000000, 500000] [8, 4] [0, 0] [1, 1] [1, 1] := by
  norm_num [calculate_vora_score, normalizeSeries, seriesMin?, seriesMax?, ratMin, ratMax,
    pyDiv, PyFloat.add, PyFloat.scale, pyTruncToInt, ratFloor]

/-- C2: on a degenerate collection (every TVL equal, here the two-record
series [5, 5]) the normalize of src/live_dashboard.py divides 0 by 0 and
yields NaN for every record, not the exact 0 the claim requires. -/
theorem normalize_degenerate_yields_nan :
    normalizeSeries [5, 5] = [PyFloat.nan, PyFloat.nan] := by
  norm_num [normalizeSeries, seriesMin?, seriesMax?, ratMin, ratMax, pyDiv]

/-- C4: in src/live_dashboard.py the selection does NOT survive a filter
change.  With the session selection holding ETH-USDC and no thresholds the
sync keeps the pool selected, but raising the minimum-TVL filter to
2000000 (which removes the pool from the view) rebuilds the session
selection from the displayed rows only and evicts it, leaving the
selection empty instead of unchanged. -/
theorem main_filter_evicts_selection :
    (main_sync_selected ["ETH-USDC"] [gridETH] ["ALL"] ["ALL"] 0 0).map (fun r => r.symbol) =
        ["ETH-USDC"] ∧
      main_sync_selected ["ETH-USDC"] [gridETH] ["ALL"] ["ALL"] 2000000 0 = [] := by
  constructor <;>
    norm_num [main_sync_selected, mainFilters, roundHalfEven, ratFloor, gridETH]

/-- C5: update_portfolio does NOT de-duplicate by composite key.  Merging
the incoming row (same symbol, chain and protocol as the stored rowOld but
TVL 200 instead of 100) leaves TWO entries for the key, the stale one
first, instead of exactly one entry carrying the incoming values. -/
theorem update_portfolio_duplicate_key :
    update_portfolio [rowNew] [0] [rowOld] = [rowOld, rowNew] ∧
      rowOld.symbol = rowNew.symbol ∧ rowOld.chain = rowNew.chain ∧
      rowOld.protocol = rowNew.protocol ∧ rowOld.tvlUsd ≠ rowNew.tvlUsd := by
  refine ⟨by decide, rfl, rfl, rfl, by decide⟩

/-- C6: update_portfolio does NOT remove a deselected pool.  The view
contains rowOld, the stored portfolio contains rowOld, and the selected
rows are empty (the row was just deselected); the code keeps rowOld in the
portfolio, although its own comment says deselected rows are removed and
the claim says the pool must be absent after reconciliation. -/
theorem update_portfolio_keeps_deselected :
    update_portfolio [rowOld] [] [rowOld] = [rowOld] := by
  decide

/-- C7: the record preparation of src/live_dashboard.py neither defaults
an absent apy to 0 nor drops a record whose tvlUsd is absent: the fixture
record with both fields missing passes through astype(float) unchanged, so
a record with missing tvlUsd reaches the Score Engine and its apy is NaN
rather than 0. -/
theorem main_normalize_passes_missing_tvl :
    main_normalize [rawMissing] = [⟨"X", "Ethereum", "uniswap-v3", none, none⟩] ∧
      ∀ r ∈ main_normalize [rawMissing], r.tvl = none ∧ r.apy ≠ some 0 := by
  constructor <;> decide

/-- C8: behavior of the two fetch_data variants on a failing Pool Data
Source.  The live_dashboard.py variant returns the empty list after its
three failed attempts, as the claim states; but the app.py variant has no
try/except around requests.get, so an unreachable data source raises and
the exception propagates to the caller, contradicting the claim. -/
theorem fetch_data_failure_behavior :
    fetch_data (fun _ => none) = [] ∧
      app_fetch_data HttpResult.raised =
        Except.error "requests.exceptions.RequestException" :=
  ⟨rfl, rfl⟩

/-- C9: with a non-empty displayed view, an empty selection and an empty
stored portfolio, the aggregate subset is empty, yet update_portfolio
emits the three pandas means over empty columns — NaN values — instead of
the sentinel no-data result the claim requires (the sentinel branch tests
the emptiness of the VIEW, not of the subset being averaged). -/
theorem update_portfolio_stats_nan :
    update_portfolio_stats [rowOld] [] [] = PortfolioStats.stats none none none := by
  decide

/-- C3, counterexample: token matching is NOT substring matching.  With
token1 the three-character pattern A.C and the one-row collection whose
symbol is ABC, the code keeps the row (pandas str.contains treats the dot
as a regex wildcard), although A.C is not a case-insensitive substring of
ABC — so the stated membership condition is false at this input. -/
theorem update_results_regex_counterexample :
    rowABC ∈ update_results critRegex [rowABC] ∧ ¬ specTokenMatch "A.C" "ABC" := by
  constructor
  · decide
  · decide

/-- C3, amended: provided both token filters contain only alphanumeric
characters (no regex metacharacters), a row is in the update_results
output exactly when it is in the collection and satisfies every supplied
criterion — chain membership (or no chains given), protocol membership
(or none given), both case-insensitive substring token matches (or the
token is empty) and both numeric thresholds (or the threshold is at its
falsy default 0). -/
theorem update_results_mem_iff (c : FilterCriteria) (df : List Row) (r : Row)
    (h1 : ∀ ch ∈ c.token1Filter.data, ch.isAlphanum = true)
    (h2 : ∀ ch ∈ c.token2Filter.data, ch.isAlphanum = true) :
    r ∈ update_results c df ↔
      r ∈ df ∧
        (c.chainFilter = [] ∨ r.chain ∈ c.chainFilter) ∧
        (c.protocolFilter = [] ∨ r.protocol ∈ c.protocolFilter) ∧
        (c.token1Filter = "" ∨ specTokenMatch c.token1Filter r.symbol) ∧
        (c.token2Filter = "" ∨ specTokenMatch c.token2Filter r.symbol) ∧
        (c.tvlFilter = 0 ∨ c.tvlFilter ≤ r.tvlUsd) ∧
        (c.apyFilter = 0 ∨ c.apyFilter ≤ r.apy) := by
  simp only [update_results, sortValuesScoreDesc, List.mem_reverse,
    List.mem_insertionSort, mem_optFilter, decide_eq_true_eq,
    strContains_iff_specTokenMatch r.symbol c.token1Filter h1,
    strContains_iff_specTokenMatch r.symbol c.token2Filter h2, and_assoc]

/-- C3, witness: the amended equivalence applied to the concrete criteria
critToken (chain Ethereum, token USDC, minimum TVL 800000, minimum APY 5)
and the one-row collection containing rowWUSDC. -/
theorem update_results_mem_iff_witness :
    rowWUSDC ∈ update_results critToken [rowWUSDC] ↔
      rowWUSDC ∈ [rowWUSDC] ∧
        (critToken.chainFilter = [] ∨ rowWUSDC.chain ∈ critToken.chainFilter) ∧
        (critToken.protocolFilter = [] ∨ rowWUSDC.protocol ∈ critToken.protocolFilter) ∧
        (critToken.token1Filter = "" ∨ specTokenMatch critToken.token1Filter rowWUSDC.symbol) ∧
        (critToken.token2Filter = "" ∨ specTokenMatch critToken.token2Filter rowWUSDC.symbol) ∧
        (critToken.tvlFilter = 0 ∨ critToken.tvlFilter ≤ rowWUSDC.tvlUsd) ∧
        (critToken.apyFilter = 0 ∨ critToken.apyFilter ≤ rowWUSDC.apy) :=
  update_results_mem_iff critToken [rowWUSDC] rowWUSDC (by decide) (by decide)

/-- C10, counterexample: the default-criteria pipeline is NOT the identity
on every RankedCollection.  The two-row collection [rowT1, rowT2] is
score-descending (both scores are 80), every filter is skipped, yet the
concluding pandas sort — an ascending argsort whose indexer is reversed —
returns the tied rows in the opposite order, so the output differs from
the input. -/
theorem update_results_default_not_identity :
    List.Sorted scoreGe [rowT1, rowT2] ∧
      update_results defaultCriteria [rowT1, rowT2] = [rowT2, rowT1] ∧
      update_results defaultCriteria [rowT1, rowT2] ≠ [rowT1, rowT2] := by
  refine ⟨?_, by decide, by decide⟩
  simp [List.sorted_cons, scoreGe, rowT1, rowT2]

/-- C10, amended: with every filter field at its no-restriction default
the pipeline keeps exactly the rows of the RankedCollection (the output
is a permutation of the input) and returns them in score-descending
order; and it is the identity whenever the collection has no score ties
(strictly descending scores).  Equal-score rows may come back permuted
(in reversed relative order), because the pandas descending sort reverses
an ascending argsort and is not stable. -/
theorem update_results_default_output (df : List Row) :
    (update_results defaultCriteria df).Perm df ∧
      List.Sorted scoreGe (update_results defaultCriteria df) ∧
      (List.Sorted scoreGt df → update_results defaultCriteria df = df) := by
  have e : update_results defaultCriteria df = sortValuesScoreDesc df := by
    simp [update_results, defaultCriteria, optFilter]
  refine ⟨?_, ?_, ?_⟩
  · rw [e]
    exact (List.reverse_perm _).trans (List.perm_insertionSort scoreLe df)
  · rw [e]
    unfold sortValuesScoreDesc
    rw [List.Sorted, List.pairwise_reverse]
    exact List.sorted_insertionSort scoreLe df
  · intro h
    rw [e]
    unfold sortValuesScoreDesc
    rw [insertionSort_of_sorted_strict df h, List.reverse_reverse]

/-- C10, witness: the amended theorem applied to the concrete collection
[rowA, rowB], whose scores 90 and 80 are strictly descending, so the
identity conclusion also fires. -/
theorem update_results_default_output_witness :
    (update_results defaultCriteria [rowA, rowB]).Perm [rowA, rowB] ∧
      List.Sorted scoreGe (update_results defaultCriteria [rowA, rowB]) ∧
      update_results defaultCriteria [rowA, rowB] = [rowA, rowB] := by
  obtain ⟨h1, h2, h3⟩ := update_results_default_output [rowA, rowB]
  refine ⟨h1, h2, h3 ?_⟩
  norm_num [List.sorted_cons, scoreGt, rowA, rowB]
